import Mathlib

/-!
# Orange Ball Odyssey — verification of the per-frame simulation core

Shallow embedding of the arcade-game simulation implemented in
`src/components/OrangeBallGame.tsx` (2D canvas side-scroller),
`src/components/OrangeBall3DGame.tsx` (3D maze variant and 3D city
variant, two components in one file) and the unnamed city-variant file.

Modelling conventions:
* JavaScript numbers are modelled as exact rationals (`ℚ`) where the code
  only adds, subtracts, multiplies and compares, and as real numbers (`ℝ`)
  where the code takes Euclidean lengths (`Math.sqrt` via THREE.js).
* `Date.now()` timestamps are integers (`ℤ`); counters are `ℕ`.
* Rendering, sound, toasts and React `useState` mirrors of session fields
  are outside the model, except where a claim is about them (the
  `finalScore` display value written by `endGame`).
* A `setTimeout(f, d)` call is modelled as incrementing a counter of
  pending deferred actions in the session state.
-/

namespace OrangeBall

/-- Componentwise clamp, `Math.max(lo, Math.min(hi, v))` — the formula used
by `THREE.Vector3.clamp` and by a closest-point-on-rectangle computation. -/
def clampVal {α : Type} [LinearOrder α] (v lo hi : α) : α :=
  max lo (min hi v)

/-! ## 2D side-scroller (`OrangeBallGame.tsx`)

Ball record from the `Ball` interface of the 2D variant
(`x, y, radius, normalRadius, velocityX, velocityY, gravity, jumpForce,
onGround, consecutiveJumps, lastJumpTime`; the cosmetic `color` field is
omitted). -/

structure Ball2D where
  x : ℚ
  y : ℚ
  radius : ℚ
  normalRadius : ℚ
  velocityX : ℚ
  velocityY : ℚ
  gravity : ℚ
  jumpForce : ℚ
  onGround : Bool
  consecutiveJumps : ℕ
  lastJumpTime : ℤ
deriving DecidableEq, Repr

/-- `jump` (`OrangeBallGame.tsx:109-145`): grounded tap starts a combo at 1
and sets `velocityY = jumpForce`; an airborne tap within 300ms with fewer
than 3 stacks increments the counter and multiplies the jump force by
`1 + consecutiveJumps * 0.2`, computed after the increment.  The toast
shown at power level ≥ 2 is UI-only and not modelled. -/
def jump2D (ball : Ball2D) (currentTime : ℤ) : Ball2D :=
  if ball.onGround then
    { ball with
        consecutiveJumps := 1
        lastJumpTime := currentTime
        velocityY := ball.jumpForce
        onGround := false }
  else
    if currentTime - ball.lastJumpTime < 300 ∧ ball.consecutiveJumps < 3 then
      { ball with
          consecutiveJumps := ball.consecutiveJumps + 1
          lastJumpTime := currentTime
          velocityY := ball.jumpForce * (1 + ((ball.consecutiveJumps : ℚ) + 1) * 0.2) }
    else
      ball

/-- `updateBall` (`OrangeBallGame.tsx:209-243`): gravity (screen axis points
down, so gravity is added), integration, ground clamp against the canvas
bottom, horizontal boundary clamps, and the falling combo reset. -/
def updateBall2D (canvasWidth canvasHeight : ℚ) (ball : Ball2D) : Ball2D :=
  let b1 := { ball with velocityY := ball.velocityY + ball.gravity }
  let b2 := { b1 with y := b1.y + b1.velocityY, x := b1.x + b1.velocityX }
  let b3 :=
    if b2.y + b2.radius > canvasHeight then
      { b2 with y := canvasHeight - b2.radius, velocityY := 0, onGround := true }
    else
      { b2 with onGround := false }
  let b4 :=
    if b3.x - b3.radius < 0 then
      { b3 with x := b3.radius, velocityX := 0 }
    else if b3.x + b3.radius > canvasWidth then
      { b3 with x := canvasWidth - b3.radius, velocityX := 0 }
    else
      b3
  if b4.velocityY > 0 ∧ b4.onGround = false then
    { b4 with consecutiveJumps := 0 }
  else
    b4

/-- Obstacle record of the 2D variant (`Obstacle` interface): an
axis-aligned rectangle; the category tag does not enter the collision
test and is omitted. -/
structure Obstacle2D where
  x : ℚ
  y : ℚ
  width : ℚ
  height : ℚ
deriving DecidableEq, Repr

/-- Power-up kind (`'grow' | 'shrink'`). -/
inductive PowerUpKind where
  | grow
  | shrink
deriving DecidableEq, Repr

/-- Power-up record of the 2D variant (`PowerUp` interface). -/
structure PowerUp2D where
  x : ℚ
  y : ℚ
  width : ℚ
  height : ℚ
  kind : PowerUpKind
  active : Bool
deriving DecidableEq, Repr

/-- The obstacle test of `checkCollisions` (`OrangeBallGame.tsx:369-374`):
`ball.x + ball.radius > obstacle.x && ball.x - ball.radius < obstacle.x +
obstacle.width && ball.y + ball.radius > obstacle.y && ball.y -
ball.radius < obstacle.y + obstacle.height`. -/
def hitsObstacle (b : Ball2D) (o : Obstacle2D) : Bool :=
  decide (b.x + b.radius > o.x) && decide (b.x - b.radius < o.x + o.width) &&
  decide (b.y + b.radius > o.y) && decide (b.y - b.radius < o.y + o.height)

/-- The power-up test of `checkCollisions` (`OrangeBallGame.tsx:385-388`),
the same four comparisons against the power-up rectangle. -/
def hitsPowerUp (b : Ball2D) (p : PowerUp2D) : Bool :=
  decide (b.x + b.radius > p.x) && decide (b.x - b.radius < p.x + p.width) &&
  decide (b.y + b.radius > p.y) && decide (b.y - b.radius < p.y + p.height)

/-- New ball radius on power-up pickup (`OrangeBallGame.tsx:391-407`):
`grow` sets `min(normalRadius * 1.5, 25)`, `shrink` sets
`max(normalRadius * 0.7, 10)`. -/
def applyPowerUpRadius (b : Ball2D) (p : PowerUp2D) : ℚ :=
  match p.kind with
  | .grow => min (b.normalRadius * 1.5) 25
  | .shrink => max (b.normalRadius * 0.7) 10

/-- Session state of the 2D variant (`GameState` fields that the collision
check touches).  `pendingRadiusResets` counts the `setTimeout` radius-revert
callbacks scheduled by power-up pickups. -/
structure Game2D where
  ball : Ball2D
  obstacles : List Obstacle2D
  powerUps : List PowerUp2D
  gameOver : Bool
  pendingRadiusResets : ℕ
deriving DecidableEq, Repr

/-- The power-up loop of `checkCollisions` (`OrangeBallGame.tsx:381-424`):
walks the live list in order; an active, overlapping power-up changes the
ball radius, is spliced out of the list, and schedules one radius-revert
timer; every other entry is kept.  The splice-and-decrement iteration of
the source is exactly this structural recursion.  Returns the updated
ball, the surviving list, and the number of timers scheduled. -/
def processPowerUps (ball : Ball2D) : List PowerUp2D → Ball2D × List PowerUp2D × ℕ
  | [] => (ball, [], 0)
  | p :: rest =>
    if p.active = true ∧ hitsPowerUp ball p = true then
      let r := processPowerUps { ball with radius := applyPowerUpRadius ball p } rest
      (r.1, r.2.1, r.2.2 + 1)
    else
      let r := processPowerUps ball rest
      (r.1, p :: r.2.1, r.2.2)

/-- `endGame` of the 2D variant, restricted to the session field it sets:
`gameState.gameOver = true` (the final-score display, the toast and the
high-score bookkeeping are UI-side). -/
def endGame2D (s : Game2D) : Game2D :=
  { s with gameOver := true }

/-- `checkCollisions` (`OrangeBallGame.tsx:363-425`): the obstacle loop
calls `endGame()` on the first overlap and breaks (equivalently: the
session is ended iff some obstacle passes the overlap test), then the
power-up loop runs on the (possibly ended) session. -/
def checkCollisions2D (s : Game2D) : Game2D :=
  let s1 := if s.obstacles.any (fun o => hitsObstacle s.ball o) then endGame2D s else s
  let r := processPowerUps s1.ball s1.powerUps
  { s1 with
      ball := r.1
      powerUps := r.2.1
      pendingRadiusResets := s1.pendingRadiusResets + r.2.2 }

/-- Modelled from the spec: a true circle-vs-axis-aligned-rectangle overlap
predicate ("a rectangle-vs-circle overlap test", "AABB-circle overlap",
closest-point form: distance from the circle center to the closest point of
the rectangle is below the radius, stated on squared distances).  This
definition follows the spec's words, not the source, and exists only to be
compared with the code's `hitsObstacle` test. -/
def circleIntersectsRect (b : Ball2D) (o : Obstacle2D) : Prop :=
  (b.x - clampVal b.x o.x (o.x + o.width)) ^ 2 +
    (b.y - clampVal b.y o.y (o.y + o.height)) ^ 2 < b.radius ^ 2

instance (b : Ball2D) (o : Obstacle2D) : Decidable (circleIntersectsRect b o) := by
  unfold circleIntersectsRect
  infer_instance

/-- The initial 2D ball (`OrangeBallGame.tsx:27-40` with the medium
difficulty tier of `GameUtils.ts`: gravity `0.6`, jump force `-12`). -/
def initialBall2D : Ball2D :=
  { x := 80
    y := 0
    radius := 15
    normalRadius := 15
    velocityX := 0
    velocityY := 0
    gravity := 0.6
    jumpForce := -12
    onGround := true
    consecutiveJumps := 0
    lastJumpTime := 0 }

/-- The ball-field effect of `resetGame` (`OrangeBallGame.tsx:642-685`):
medium-tier gravity and jump force, radius 15, combo cleared, position
`(80, canvasHeight - 30)`, velocities zeroed, grounded. -/
def resetBall2D (canvasHeight : ℚ) : Ball2D :=
  { x := 80
    y := canvasHeight - 30
    radius := 15
    normalRadius := 15
    velocityX := 0
    velocityY := 0
    gravity := 0.6
    jumpForce := -12
    onGround := true
    consecutiveJumps := 0
    lastJumpTime := 0 }

/-- Reachable 2D ball states: the initial ball, closed under every
mutation of the ball record that occurs in the first component of
`OrangeBallGame.tsx` — `jump`, `updateBall` (any canvas size),
`moveLeft`/`moveRight`/`stopHorizontalMovement`, the two power-up radius
effects and the deferred radius revert, `resetGame`, and the
`resizeCanvas`/`initGame` repositioning. -/
inductive Reach2D : Ball2D → Prop where
  | init : Reach2D initialBall2D
  | jump (b : Ball2D) (t : ℤ) : Reach2D b → Reach2D (jump2D b t)
  | tick (b : Ball2D) (w h : ℚ) : Reach2D b → Reach2D (updateBall2D w h b)
  | moveLeft (b : Ball2D) : Reach2D b → Reach2D { b with velocityX := -5 }
  | moveRight (b : Ball2D) : Reach2D b → Reach2D { b with velocityX := 5 }
  | stopMove (b : Ball2D) : Reach2D b → Reach2D { b with velocityX := 0 }
  | powerGrow (b : Ball2D) :
      Reach2D b → Reach2D { b with radius := min (b.normalRadius * 1.5) 25 }
  | powerShrink (b : Ball2D) :
      Reach2D b → Reach2D { b with radius := max (b.normalRadius * 0.7) 10 }
  | powerExpire (b : Ball2D) : Reach2D b → Reach2D { b with radius := b.normalRadius }
  | reset (b : Ball2D) (h : ℚ) : Reach2D b → Reach2D (resetBall2D h)
  | reposition (b : Ball2D) (y : ℚ) : Reach2D b → Reach2D { b with y := y }

/-! ## 3D variants (`OrangeBall3DGame.tsx`, both components, and the
unnamed city-variant file)

Geometry (lengths, normalization) uses real numbers because the source
takes Euclidean norms (`THREE.Vector3.length`, `distanceTo`). -/

/-- A 3D vector (`THREE.Vector3`). -/
structure Vec3R where
  x : ℝ
  y : ℝ
  z : ℝ

/-- `THREE.Vector3.subVectors a b` / `a.clone().sub(b)`. -/
def vsub (a b : Vec3R) : Vec3R :=
  ⟨a.x - b.x, a.y - b.y, a.z - b.z⟩

/-- `THREE.Vector3.length`: the Euclidean norm. -/
noncomputable def vlen (v : Vec3R) : ℝ :=
  Real.sqrt (v.x ^ 2 + v.y ^ 2 + v.z ^ 2)

/-- `THREE.Vector3.normalize`: `divideScalar(length || 1)` — dividing by 1
when the length is zero, so the zero vector normalizes to itself. -/
noncomputable def vnormalize (v : Vec3R) : Vec3R :=
  ⟨v.x / (if vlen v = 0 then 1 else vlen v),
   v.y / (if vlen v = 0 then 1 else vlen v),
   v.z / (if vlen v = 0 then 1 else vlen v)⟩

/-- An axis-aligned box (`THREE.Box3`). -/
structure Box3R where
  min : Vec3R
  max : Vec3R

/-- `THREE.Box3.clampPoint`: componentwise clamp of a point into the box. -/
noncomputable def clampPoint (box : Box3R) (p : Vec3R) : Vec3R :=
  ⟨clampVal p.x box.min.x box.max.x,
   clampVal p.y box.min.y box.max.y,
   clampVal p.z box.min.z box.max.z⟩

/-- Distance between two points (`THREE.Vector3.distanceTo`). -/
noncomputable def distR (a b : Vec3R) : ℝ :=
  vlen (vsub a b)

/-- Ball record of the 3D variants.  The maze component's ball has no
`deflated` field; the city components add it and never read it in the code
shared with the maze, so one record serves all 3D variants. -/
structure Ball3R where
  position : Vec3R
  velocity : Vec3R
  radius : ℝ
  normalRadius : ℝ
  onGround : Bool
  jumpForce : ℝ
  gravity : ℝ
  consecutiveJumps : ℕ
  lastJumpTime : ℤ
  deflated : Bool

/-- `jump` (`OrangeBall3DGame.tsx:331-361`, maze variant): identical
combo logic to the 2D `jump`, acting on `velocity.y`. -/
def jump3D (ball : Ball3R) (currentTime : ℤ) : Ball3R :=
  if ball.onGround then
    { ball with
        consecutiveJumps := 1
        lastJumpTime := currentTime
        velocity := { ball.velocity with y := ball.jumpForce }
        onGround := false }
  else
    if currentTime - ball.lastJumpTime < 300 ∧ ball.consecutiveJumps < 3 then
      { ball with
          consecutiveJumps := ball.consecutiveJumps + 1
          lastJumpTime := currentTime
          velocity := { ball.velocity with
            y := ball.jumpForce * (1 + ((ball.consecutiveJumps : ℝ) + 1) * 0.2) } }
    else
      ball

open Classical in
/-- `updateBall` (`OrangeBall3DGame.tsx:422-475`): subtract gravity from
`velocity.y`, advance the position componentwise by the velocity, clamp to
the ground plane `y = 0` (resting the ball at `position.y = radius`,
zeroing `velocity.y` and grounding it; otherwise `onGround = false`), and
reset the combo counter when falling while airborne.  The ball-mesh sync
in the middle of the source function is render-only and not modelled. -/
noncomputable def updateBall3D (ball : Ball3R) : Ball3R :=
  let b1 := { ball with velocity := { ball.velocity with y := ball.velocity.y - ball.gravity } }
  let b2 := { b1 with position :=
    ⟨b1.position.x + b1.velocity.x, b1.position.y + b1.velocity.y,
     b1.position.z + b1.velocity.z⟩ }
  let b3 :=
    if b2.position.y - b2.radius < 0 then
      { b2 with
          position := { b2.position with y := b2.radius }
          velocity := { b2.velocity with y := 0 }
          onGround := true }
    else
      { b2 with onGround := false }
  if b3.velocity.y < 0 ∧ b3.onGround = false then
    { b3 with consecutiveJumps := 0 }
  else
    b3

open Classical in
/-- `isColliding` (`OrangeBall3DGame.tsx:528-542`): the ball overlaps a box
iff the distance from its center to the closest point on the box is below
the radius. -/
noncomputable def isCollidingR (ballPosition : Vec3R) (ballRadius : ℝ) (box : Box3R) : Prop :=
  distR ballPosition (clampPoint box ballPosition) < ballRadius

open Classical in
/-- Body of the maze-wall collision handler
(`OrangeBall3DGame.tsx:489-523`), entered once `isColliding` holds: compute
the closest point, the penetration vector and depth; if the depth is
positive, normalize the vector, push the ball out along the `x` and `z`
components only, then classify the contact by the vertical component of
the normal (`> 0.7`: land or hit ceiling; otherwise zero the dominant
horizontal velocity component). -/
noncomputable def resolveOverlap (ball : Ball3R) (box : Box3R) : Ball3R :=
  let closestPoint := clampPoint box ball.position
  let penetrationVector := vsub ball.position closestPoint
  let penetrationDepth := ball.radius - vlen penetrationVector
  if 0 < penetrationDepth then
    let n := vnormalize penetrationVector
    let b1 := { ball with position :=
      ⟨ball.position.x + n.x * penetrationDepth, ball.position.y,
       ball.position.z + n.z * penetrationDepth⟩ }
    if 0.7 < |n.y| then
      if 0 < n.y then
        { b1 with velocity := { b1.velocity with y := 0 }, onGround := true }
      else
        { b1 with velocity := { b1.velocity with y := -0.01 } }
    else
      if |n.z| < |n.x| then
        { b1 with velocity := { b1.velocity with x := 0 } }
      else
        { b1 with velocity := { b1.velocity with z := 0 } }
  else
    ball

open Classical in
/-- One wall iteration of `checkCollisions` (`OrangeBall3DGame.tsx:483-525`):
the overlap test followed by the resolution body. -/
noncomputable def resolveWallCollision (ball : Ball3R) (box : Box3R) : Ball3R :=
  if isCollidingR ball.position ball.radius box then resolveOverlap ball box else ball

/-- City-variant obstacle: its bounding box and the `dangerous` flag
(nails are dangerous; trees and people are not). -/
structure Obstacle3R where
  box : Box3R
  dangerous : Bool

open Classical in
/-- One iteration of `checkObstacleCollisions`
(`OrangeBall3DGame.tsx:1944-1982`): on overlap, a dangerous obstacle
deflates a not-yet-deflated ball (flag set, radius becomes
`normalRadius * 0.8`); a non-dangerous obstacle applies a small positional
nudge and bounce velocity along the outward direction; a dangerous
obstacle touching an already deflated ball does nothing. -/
noncomputable def obstacleCollisionStep (ball : Ball3R) (o : Obstacle3R) : Ball3R :=
  if isCollidingR ball.position ball.radius o.box then
    if o.dangerous = true ∧ ball.deflated = false then
      { ball with deflated := true, radius := ball.normalRadius * 0.8 }
    else if o.dangerous = false then
      let bounceDirection := vnormalize (vsub ball.position (clampPoint o.box ball.position))
      { ball with
          position :=
            ⟨ball.position.x + bounceDirection.x * 0.2, ball.position.y,
             ball.position.z + bounceDirection.z * 0.2⟩
          velocity :=
            ⟨bounceDirection.x * 0.1, ball.velocity.y, bounceDirection.z * 0.1⟩ }
    else
      ball
  else
    ball

/-- `checkObstacleCollisions` (`OrangeBall3DGame.tsx:1941-1983`): the
obstacle loop, each iteration acting on the ball left by the previous
one. -/
noncomputable def checkObstacleCollisions3D (ball : Ball3R) : List Obstacle3R → Ball3R
  | [] => ball
  | o :: rest => checkObstacleCollisions3D (obstacleCollisionStep ball o) rest

/-- Session state of the city variant, restricted to the fields touched by
the goal check and by `endGame`.  `score` is a natural number (it starts
at 0 and only ever increases between resets), `finalScore` is the value
pushed to the game-over display, `pendingEndTimers` counts the
`setTimeout(endGame, 3000)` callbacks scheduled so far, and `animationId`
is the pending frame-request handle. -/
structure CourtState where
  ball : Ball3R
  goalPosition : Vec3R
  mazeCompleted : Bool
  score : ℕ
  gameOver : Bool
  animationId : ℕ
  finalScore : ℕ
  pendingEndTimers : ℕ

open Classical in
/-- `checkBasketballCourtReached` (`OrangeBall3DGame.tsx:2001-2034`): once
`mazeCompleted` is latched the function returns immediately; otherwise,
when the distance from the ball to the goal drops below 7, it latches the
flag, awards `250` bonus points when the ball is deflated and `500`
otherwise, and schedules one delayed `endGame` call. -/
noncomputable def checkBasketballCourtReached (s : CourtState) : CourtState :=
  if s.mazeCompleted then
    s
  else
    if distR s.ball.position s.goalPosition < 7 then
      { s with
          mazeCompleted := true
          score := s.score + (if s.ball.deflated then 250 else 500)
          pendingEndTimers := s.pendingEndTimers + 1 }
    else
      s

/-- `endGame` (`OrangeBall3DGame.tsx:2044-2076`): unconditionally sets
`gameOver`, cancels the pending frame request (`animationId := 0`), and
pushes `floor(score / 10)` to the final-score display.  There is no guard
on `gameOver`: the function acts the same whether or not the session is
still live.  The toast and high-score comparison are UI-side. -/
def endGameCourt (s : CourtState) : CourtState :=
  { s with
      gameOver := true
      animationId := 0
      finalScore := s.score / 10 }

/-! ## Concrete states used to instantiate the theorems below -/

/-- A 2D ball airborne mid-combo (one stack, last jump at t = 1000). -/
def airborneBall2D : Ball2D :=
  { initialBall2D with onGround := false, consecutiveJumps := 1, lastJumpTime := 1000, y := 300 }

/-- A 2D ball airborne at the 3-stack combo cap. -/
def cappedBall2D : Ball2D :=
  { airborneBall2D with consecutiveJumps := 3 }

/-- A 2D ball just above the canvas bottom (canvas height 600 in the
instantiations below). -/
def lowBall2D : Ball2D :=
  { initialBall2D with y := 590, onGround := false }

/-- A 2D ball overlapping the left screen boundary after integration. -/
def leftBall2D : Ball2D :=
  { initialBall2D with x := 5 }

/-- A 2D ball at `(80, 300)`, radius 15. -/
def midairBall2D : Ball2D :=
  { initialBall2D with y := 300, onGround := false }

/-- An obstacle whose rectangle meets the bounding square of
`midairBall2D` only at a corner region the circle does not reach: its
closest point `(91, 311)` is at squared distance `242 ≥ 15²` from the
center `(80, 300)`. -/
def cornerObstacle2D : Obstacle2D :=
  ⟨91, 311, 6, 6⟩

/-- 2D session holding only `cornerObstacle2D`. -/
def cornerGame2D : Game2D :=
  ⟨midairBall2D, [cornerObstacle2D], [], false, 0⟩

/-- An active grow power-up overlapping `midairBall2D`. -/
def growPowerUp2D : PowerUp2D :=
  ⟨70, 295, 10, 10, .grow, true⟩

/-- 2D session holding only `growPowerUp2D`. -/
def pickupGame2D : Game2D :=
  ⟨midairBall2D, [], [growPowerUp2D], false, 0⟩

/-- The maze variant's initial ball (`OrangeBall3DGame.tsx:56-66`). -/
def baseBall3R : Ball3R :=
  { position := ⟨0, 1, 0⟩
    velocity := ⟨0, 0, 0⟩
    radius := 0.5
    normalRadius := 0.5
    onGround := true
    jumpForce := 0.3
    gravity := 0.015
    consecutiveJumps := 0
    lastJumpTime := 0
    deflated := false }

/-- A 3D ball airborne mid-combo. -/
def airborneBall3R : Ball3R :=
  { baseBall3R with onGround := false, consecutiveJumps := 1, lastJumpTime := 1000,
                    position := ⟨0, 3, 0⟩ }

/-- A 3D ball low enough that the next tick clamps it to the ground. -/
def lowBall3R : Ball3R :=
  { baseBall3R with position := ⟨0, 0.4, 0⟩, onGround := false }

/-- A unit-height box around the origin. -/
def topBox3R : Box3R :=
  ⟨⟨-1, 0, -1⟩, ⟨1, 1, 1⟩⟩

/-- A ball penetrating `topBox3R` purely from above: center `(0, 1.2, 0)`,
closest point `(0, 1, 0)`, penetration vector `(0, 0.2, 0)`. -/
def overlapBall3R : Ball3R :=
  { baseBall3R with position := ⟨0, 1.2, 0⟩, onGround := false }

/-- A box to the side of `sideBall3R`. -/
def sideBox3R : Box3R :=
  ⟨⟨1, 0, -1⟩, ⟨2, 1, 1⟩⟩

/-- A ball penetrating `sideBox3R` purely horizontally: center
`(0.6, 0.5, 0)`, closest point `(1, 0.5, 0)`, penetration vector
`(-0.4, 0, 0)`. -/
def sideBall3R : Ball3R :=
  { baseBall3R with position := ⟨0.6, 0.5, 0⟩ }

/-- A dangerous (nail) obstacle occupying `topBox3R`; `baseBall3R` sits
inside it. -/
def nailObstacle3R : Obstacle3R :=
  ⟨topBox3R, true⟩

/-- City session with the ball at the goal center, goal not yet reached. -/
def courtStateReady : CourtState :=
  { ball := baseBall3R
    goalPosition := ⟨0, 1, 0⟩
    mazeCompleted := false
    score := 120
    gameOver := false
    animationId := 3
    finalScore := 0
    pendingEndTimers := 0 }

/-- A session that has already ended (`gameOver` latched) with a stale
animation handle and a stale final-score display — the state a deferred
`endGame` timer can fire against. -/
def endedCourtState : CourtState :=
  { ball := baseBall3R
    goalPosition := ⟨25, 1, 25⟩
    mazeCompleted := true
    score := 230
    gameOver := true
    animationId := 7
    finalScore := 0
    pendingEndTimers := 1 }

/-! ## Helper lemmas -/

theorem vlen_eval {x y z : ℝ} (c : ℝ) (hc : 0 ≤ c) (h : x ^ 2 + y ^ 2 + z ^ 2 = c ^ 2) :
    vlen ⟨x, y, z⟩ = c := by
  simp only [vlen]
  rw [h, Real.sqrt_sq hc]

theorem distR_self (a : Vec3R) : distR a a = 0 := by
  simp only [distR, vsub, sub_self]
  exact vlen_eval 0 le_rfl (by ring)

/-! ## C1 — jump-input edge semantics (2D `jump` and 3D maze `jump`) -/

/-- **C1**: at a jump-input edge, a grounded ball starts a combo —
`consecutiveJumps = 1`, vertical velocity set to `jumpForce`, `onGround`
cleared, `lastJumpTime` stamped; an airborne ball whose edge arrives
strictly within 300ms of the previous jump with fewer than 3 stacks gets
the counter incremented and vertical velocity
`jumpForce * (1 + 0.2 * count)` computed with the incremented count; in
particular a second edge at +150ms from one stack yields
`jumpForce * 1.4` and count 2.  Stated for the 2D `jump`
(`OrangeBallGame.tsx:109-145`) and the 3D maze `jump`
(`OrangeBall3DGame.tsx:331-361`), which share the logic verbatim. -/
theorem jump_combo_semantics :
    (∀ (b : Ball2D) (t : ℤ), b.onGround = true →
      jump2D b t = { b with consecutiveJumps := 1, lastJumpTime := t,
                            velocityY := b.jumpForce, onGround := false }) ∧
    (∀ (b : Ball2D) (t : ℤ), b.onGround = false → t - b.lastJumpTime < 300 →
      b.consecutiveJumps < 3 →
      (jump2D b t).consecutiveJumps = b.consecutiveJumps + 1 ∧
      (jump2D b t).velocityY
        = b.jumpForce * (1 + 0.2 * ((b.consecutiveJumps : ℚ) + 1)) ∧
      (jump2D b t).lastJumpTime = t ∧
      (jump2D b t).onGround = false) ∧
    (∀ b : Ball2D, b.onGround = false → b.consecutiveJumps = 1 →
      (jump2D b (b.lastJumpTime + 150)).velocityY = b.jumpForce * 1.4 ∧
      (jump2D b (b.lastJumpTime + 150)).consecutiveJumps = 2) ∧
    (∀ (b : Ball3R) (t : ℤ), b.onGround = true →
      jump3D b t = { b with consecutiveJumps := 1, lastJumpTime := t,
                            velocity := { b.velocity with y := b.jumpForce },
                            onGround := false }) ∧
    (∀ (b : Ball3R) (t : ℤ), b.onGround = false → t - b.lastJumpTime < 300 →
      b.consecutiveJumps < 3 →
      (jump3D b t).consecutiveJumps = b.consecutiveJumps + 1 ∧
      (jump3D b t).velocity.y
        = b.jumpForce * (1 + 0.2 * ((b.consecutiveJumps : ℝ) + 1))) := by
  refine ⟨?_, ?_, ?_, ?_, ?_⟩
  · intro b t h
    simp [jump2D, h]
  · intro b t h h300 hlt
    simp only [jump2D, h, Bool.false_eq_true, if_false]
    rw [if_pos ⟨h300, hlt⟩]
    exact ⟨rfl, by push_cast; ring, rfl, rfl⟩
  · intro b h h1
    simp only [jump2D, h, Bool.false_eq_true, if_false]
    rw [if_pos ⟨by omega, by omega⟩]
    refine ⟨?_, by rw [h1]⟩
    show b.jumpForce * (1 + ((b.consecutiveJumps : ℚ) + 1) * 0.2) = b.jumpForce * 1.4
    rw [h1]
    norm_num
  · intro b t h
    simp [jump3D, h]
  · intro b t h h300 hlt
    simp only [jump3D, h, Bool.false_eq_true, if_false]
    rw [if_pos ⟨h300, hlt⟩]
    exact ⟨rfl, by push_cast; ring⟩

/-- Witness for C1: a concrete grounded tap and a concrete second tap at
+150ms from one stack. -/
theorem jump_combo_semantics_witness :
    jump2D initialBall2D 1000
      = { initialBall2D with consecutiveJumps := 1, lastJumpTime := 1000,
                             velocityY := initialBall2D.jumpForce, onGround := false } ∧
    (jump2D airborneBall2D (airborneBall2D.lastJumpTime + 150)).velocityY
      = airborneBall2D.jumpForce * 1.4 ∧
    (jump2D airborneBall2D (airborneBall2D.lastJumpTime + 150)).consecutiveJumps = 2 ∧
    jump3D baseBall3R 1000
      = { baseBall3R with consecutiveJumps := 1, lastJumpTime := 1000,
                          velocity := { baseBall3R.velocity with y := baseBall3R.jumpForce },
                          onGround := false } :=
  ⟨jump_combo_semantics.1 initialBall2D 1000 rfl,
   (jump_combo_semantics.2.2.1 airborneBall2D rfl rfl).1,
   (jump_combo_semantics.2.2.1 airborneBall2D rfl rfl).2,
   jump_combo_semantics.2.2.2.1 baseBall3R 1000 rfl⟩

/-! ## C4 — combo counter bounded by 3; stale or capped airborne edges ignored -/

theorem jump2D_count_le (b : Ball2D) (t : ℤ) (hb : b.consecutiveJumps ≤ 3) :
    (jump2D b t).consecutiveJumps ≤ 3 := by
  unfold jump2D
  split_ifs with h1 h2
  · show (1 : ℕ) ≤ 3
    norm_num
  · show b.consecutiveJumps + 1 ≤ 3
    omega
  · exact hb

theorem updateBall2D_count (w h : ℚ) (b : Ball2D) :
    (updateBall2D w h b).consecutiveJumps = 0 ∨
    (updateBall2D w h b).consecutiveJumps = b.consecutiveJumps := by
  unfold updateBall2D
  dsimp only
  split_ifs <;> first | exact Or.inl rfl | exact Or.inr rfl

/-- **C4**: every ball state reachable in the 2D variant has
`consecutiveJumps ∈ {0,1,2,3}` (as a natural number: `≤ 3`); and an
airborne jump edge arriving 300ms or more after the previous jump, or
arriving with the counter already at 3, leaves the ball record entirely
unchanged (`jump`, `OrangeBallGame.tsx:121-144`; falling reset,
`OrangeBallGame.tsx:239-242`). -/
theorem combo_count_invariant :
    (∀ b : Ball2D, Reach2D b → b.consecutiveJumps ≤ 3) ∧
    (∀ (b : Ball2D) (t : ℤ), b.onGround = false →
      (300 ≤ t - b.lastJumpTime ∨ b.consecutiveJumps = 3) → jump2D b t = b) := by
  constructor
  · intro b hb
    induction hb with
    | init => norm_num [initialBall2D]
    | jump b t _ ih => exact jump2D_count_le b t ih
    | tick b w h _ ih =>
      rcases updateBall2D_count w h b with h0 | he
      · omega
      · omega
    | moveLeft b _ ih => exact ih
    | moveRight b _ ih => exact ih
    | stopMove b _ ih => exact ih
    | powerGrow b _ ih => exact ih
    | powerShrink b _ ih => exact ih
    | powerExpire b _ ih => exact ih
    | reset b h _ _ => norm_num [resetBall2D]
    | reposition b y _ ih => exact ih
  · intro b t hg hcase
    have hneg : ¬(t - b.lastJumpTime < 300 ∧ b.consecutiveJumps < 3) := by
      rcases hcase with hc | hc
      · rintro ⟨ha, _⟩
        omega
      · rintro ⟨_, hb⟩
        omega
    simp only [jump2D, hg, Bool.false_eq_true, if_false]
    rw [if_neg hneg]

/-- Witness for C4: the initial ball is reachable and within the bound; a
second edge on a 3-stack airborne ball (even inside the 300ms window) is a
no-op. -/
theorem combo_count_invariant_witness :
    initialBall2D.consecutiveJumps ≤ 3 ∧ jump2D cappedBall2D 1100 = cappedBall2D :=
  ⟨combo_count_invariant.1 initialBall2D Reach2D.init,
   combo_count_invariant.2 cappedBall2D 1100 rfl (Or.inr rfl)⟩

/-! ## Field characterizations of the physics updates -/

theorem updateBall3D_fields (b : Ball3R) :
    (updateBall3D b).position.x = b.position.x + b.velocity.x ∧
    (updateBall3D b).position.z = b.position.z + b.velocity.z ∧
    (updateBall3D b).radius = b.radius ∧
    (b.position.y + (b.velocity.y - b.gravity) - b.radius < 0 →
       (updateBall3D b).position.y = b.radius ∧ (updateBall3D b).velocity.y = 0 ∧
       (updateBall3D b).onGround = true) ∧
    (0 ≤ b.position.y + (b.velocity.y - b.gravity) - b.radius →
       (updateBall3D b).position.y = b.position.y + (b.velocity.y - b.gravity) ∧
       (updateBall3D b).velocity.y = b.velocity.y - b.gravity ∧
       (updateBall3D b).onGround = false) := by
  simp only [updateBall3D]
  split_ifs <;>
    refine ⟨rfl, rfl, rfl, fun hy => ?_, fun hy => ?_⟩ <;>
    first | exact ⟨rfl, rfl, rfl⟩ | linarith

theorem updateBall2D_fields (w h : ℚ) (b : Ball2D) :
    (updateBall2D w h b).radius = b.radius ∧
    (h < b.y + (b.velocityY + b.gravity) + b.radius →
       (updateBall2D w h b).y = h - b.radius ∧ (updateBall2D w h b).velocityY = 0 ∧
       (updateBall2D w h b).onGround = true) ∧
    (b.y + (b.velocityY + b.gravity) + b.radius ≤ h →
       (updateBall2D w h b).y = b.y + (b.velocityY + b.gravity) ∧
       (updateBall2D w h b).velocityY = b.velocityY + b.gravity ∧
       (updateBall2D w h b).onGround = false) ∧
    (b.x + b.velocityX - b.radius < 0 →
       (updateBall2D w h b).x = b.radius ∧ (updateBall2D w h b).velocityX = 0) ∧
    (0 ≤ b.x + b.velocityX - b.radius → w < b.x + b.velocityX + b.radius →
       (updateBall2D w h b).x = w - b.radius ∧ (updateBall2D w h b).velocityX = 0) ∧
    (0 ≤ b.x + b.velocityX - b.radius → b.x + b.velocityX + b.radius ≤ w →
       (updateBall2D w h b).x = b.x + b.velocityX ∧
       (updateBall2D w h b).velocityX = b.velocityX) := by
  simp only [updateBall2D]
  split_ifs <;>
    refine ⟨rfl, fun hy => ?_, fun hy => ?_, fun hx => ?_, fun hx hx2 => ?_,
      fun hx hx2 => ?_⟩ <;>
    first
      | exact ⟨rfl, rfl, rfl⟩
      | exact ⟨rfl, rfl⟩
      | (simp_all
         try linarith)

/-! ## C3 — the ball never sinks through the floor -/

/-- **C3**: after every physics update the ball rests on or above the
ground.  3D (`OrangeBall3DGame.tsx:435-442`, ground plane `y = 0`, axis
up): `position.y − radius ≥ 0` exactly (so `≥ −ε` for every `ε ≥ 0`), with
the clamp resting the ball at `position.y = radius`, zeroing `velocity.y`
and setting `onGround`, and `onGround = false` otherwise.  2D
(`OrangeBallGame.tsx:221-228`, screen axis down, ground at the canvas
bottom): the same statement reads `y + radius ≤ canvasHeight`. -/
theorem ground_clamp_invariant :
    (∀ b : Ball3R,
       0 ≤ (updateBall3D b).position.y - (updateBall3D b).radius ∧
       (b.position.y + (b.velocity.y - b.gravity) - b.radius < 0 →
          (updateBall3D b).position.y = (updateBall3D b).radius ∧
          (updateBall3D b).velocity.y = 0 ∧ (updateBall3D b).onGround = true) ∧
       (0 ≤ b.position.y + (b.velocity.y - b.gravity) - b.radius →
          (updateBall3D b).onGround = false)) ∧
    (∀ (w h : ℚ) (b : Ball2D),
       (updateBall2D w h b).y + (updateBall2D w h b).radius ≤ h ∧
       (h < b.y + (b.velocityY + b.gravity) + b.radius →
          (updateBall2D w h b).y = h - (updateBall2D w h b).radius ∧
          (updateBall2D w h b).velocityY = 0 ∧ (updateBall2D w h b).onGround = true) ∧
       (b.y + (b.velocityY + b.gravity) + b.radius ≤ h →
          (updateBall2D w h b).onGround = false)) := by
  constructor
  · intro b
    obtain ⟨hx, hz, hr, hlow, hair⟩ := updateBall3D_fields b
    refine ⟨?_, fun hy => ⟨by rw [(hlow hy).1, hr], (hlow hy).2.1, (hlow hy).2.2⟩,
      fun hy => (hair hy).2.2⟩
    rcases lt_or_le (b.position.y + (b.velocity.y - b.gravity) - b.radius) 0 with hy | hy
    · rw [(hlow hy).1, hr]
      simp
    · rw [(hair hy).1, hr]
      linarith
  · intro w h b
    obtain ⟨hr, hclamp, hfree, _, _, _⟩ := updateBall2D_fields w h b
    refine ⟨?_, fun hy => ⟨by rw [(hclamp hy).1, hr], (hclamp hy).2.1, (hclamp hy).2.2⟩,
      fun hy => (hfree hy).2.2⟩
    rcases le_or_lt (b.y + (b.velocityY + b.gravity) + b.radius) h with hy | hy
    · rw [(hfree hy).1, hr]
      linarith
    · rw [(hclamp hy).1, hr]
      linarith

/-- Witness for C3: a 3D ball whose tick crosses the ground plane is
clamped onto it, and so is a 2D ball crossing the canvas bottom (canvas
800×600). -/
theorem ground_clamp_invariant_witness :
    (updateBall3D lowBall3R).position.y = (updateBall3D lowBall3R).radius ∧
    (updateBall3D lowBall3R).onGround = true ∧
    (updateBall2D 800 600 lowBall2D).y = 600 - (updateBall2D 800 600 lowBall2D).radius ∧
    (updateBall2D 800 600 lowBall2D).onGround = true :=
  ⟨((ground_clamp_invariant.1 lowBall3R).2.1
      (by norm_num [lowBall3R, baseBall3R])).1,
   ((ground_clamp_invariant.1 lowBall3R).2.1
      (by norm_num [lowBall3R, baseBall3R])).2.2,
   ((ground_clamp_invariant.2 800 600 lowBall2D).2.1
      (by norm_num [lowBall2D, initialBall2D])).1,
   ((ground_clamp_invariant.2 800 600 lowBall2D).2.1
      (by norm_num [lowBall2D, initialBall2D])).2.2⟩

/-! ## C8 — gravity precedes integration -/

/-- **C8**: each tick applies gravity to the vertical velocity first and
then advances the position by the updated velocity.  3D
(`OrangeBall3DGame.tsx:427-433`, axis up): away from the ground clamp the
post-tick vertical velocity is `velocity.y − gravity` and the vertical
displacement uses exactly that updated value; horizontal components
advance by the unchanged velocity.  2D (`OrangeBallGame.tsx:214-219`,
screen axis down, so "toward the ground" is `+gravity`): same statement
with `velocityY + gravity`, away from the ground and boundary clamps. -/
theorem gravity_before_integration :
    (∀ b : Ball3R,
       (updateBall3D b).position.x = b.position.x + b.velocity.x ∧
       (updateBall3D b).position.z = b.position.z + b.velocity.z ∧
       (0 ≤ b.position.y + (b.velocity.y - b.gravity) - b.radius →
          (updateBall3D b).velocity.y = b.velocity.y - b.gravity ∧
          (updateBall3D b).position.y = b.position.y + (b.velocity.y - b.gravity))) ∧
    (∀ (w h : ℚ) (b : Ball2D),
       b.y + (b.velocityY + b.gravity) + b.radius ≤ h →
       b.radius ≤ b.x + b.velocityX →
       b.x + b.velocityX + b.radius ≤ w →
       (updateBall2D w h b).velocityY = b.velocityY + b.gravity ∧
       (updateBall2D w h b).y = b.y + (b.velocityY + b.gravity) ∧
       (updateBall2D w h b).x = b.x + b.velocityX) := by
  constructor
  · intro b
    obtain ⟨hx, hz, _, _, hair⟩ := updateBall3D_fields b
    exact ⟨hx, hz, fun hy => ⟨(hair hy).2.1, (hair hy).1⟩⟩
  · intro w h b hy hxl hxr
    obtain ⟨_, _, hfree, _, _, hmid⟩ := updateBall2D_fields w h b
    exact ⟨(hfree hy).2.1, (hfree hy).1, (hmid (by linarith) hxr).1⟩

/-- Witness for C8: concrete airborne ticks of the maze ball and the 2D
ball, away from every clamp. -/
theorem gravity_before_integration_witness :
    (updateBall3D baseBall3R).velocity.y
      = baseBall3R.velocity.y - baseBall3R.gravity ∧
    (updateBall3D baseBall3R).position.y
      = baseBall3R.position.y + (baseBall3R.velocity.y - baseBall3R.gravity) ∧
    (updateBall2D 800 600 midairBall2D).velocityY
      = midairBall2D.velocityY + midairBall2D.gravity ∧
    (updateBall2D 800 600 midairBall2D).y
      = midairBall2D.y + (midairBall2D.velocityY + midairBall2D.gravity) :=
  ⟨((gravity_before_integration.1 baseBall3R).2.2 (by norm_num [baseBall3R])).1,
   ((gravity_before_integration.1 baseBall3R).2.2 (by norm_num [baseBall3R])).2,
   (gravity_before_integration.2 800 600 midairBall2D
      (by norm_num [midairBall2D, initialBall2D])
      (by norm_num [midairBall2D, initialBall2D])
      (by norm_num [midairBall2D, initialBall2D])).1,
   (gravity_before_integration.2 800 600 midairBall2D
      (by norm_num [midairBall2D, initialBall2D])
      (by norm_num [midairBall2D, initialBall2D])
      (by norm_num [midairBall2D, initialBall2D])).2.1⟩

/-! ## C10 — horizontal screen bounds in the 2D variant -/

/-- **C10**: provided the ball fits the canvas (`2·radius ≤ canvasWidth`),
every 2D physics update leaves the center inside
`[radius, canvasWidth − radius]`; a crossing of the left (resp. right)
boundary is clamped to it with the horizontal velocity zeroed
(`OrangeBallGame.tsx:230-237`). -/
theorem horizontal_bounds_invariant :
    ∀ (w h : ℚ) (b : Ball2D), 2 * b.radius ≤ w →
      (b.radius ≤ (updateBall2D w h b).x ∧ (updateBall2D w h b).x ≤ w - b.radius) ∧
      (b.x + b.velocityX - b.radius < 0 →
         (updateBall2D w h b).x = b.radius ∧ (updateBall2D w h b).velocityX = 0) ∧
      (0 ≤ b.x + b.velocityX - b.radius → w < b.x + b.velocityX + b.radius →
         (updateBall2D w h b).x = w - b.radius ∧
         (updateBall2D w h b).velocityX = 0) := by
  intro w h b hw
  obtain ⟨_, _, _, hleft, hright, hmid⟩ := updateBall2D_fields w h b
  refine ⟨?_, hleft, hright⟩
  rcases lt_or_le (b.x + b.velocityX - b.radius) 0 with hx | hx
  · rw [(hleft hx).1]
    constructor <;> linarith
  · rcases le_or_lt (b.x + b.velocityX + b.radius) w with hx2 | hx2
    · rw [(hmid hx hx2).1]
      constructor <;> linarith
    · rw [(hright hx hx2).1]
      constructor <;> linarith

/-- Witness for C10: a ball crossing the left boundary on an 800×600
canvas is clamped to `x = radius` with zero horizontal velocity. -/
theorem horizontal_bounds_invariant_witness :
    leftBall2D.radius ≤ (updateBall2D 800 600 leftBall2D).x ∧
    (updateBall2D 800 600 leftBall2D).x = leftBall2D.radius ∧
    (updateBall2D 800 600 leftBall2D).velocityX = 0 :=
  ⟨(horizontal_bounds_invariant 800 600 leftBall2D
      (by norm_num [leftBall2D, initialBall2D])).1.1,
   ((horizontal_bounds_invariant 800 600 leftBall2D
      (by norm_num [leftBall2D, initialBall2D])).2.1
      (by norm_num [leftBall2D, initialBall2D])).1,
   ((horizontal_bounds_invariant 800 600 leftBall2D
      (by norm_num [leftBall2D, initialBall2D])).2.1
      (by norm_num [leftBall2D, initialBall2D])).2⟩

/-! ## C9 — 2D collision check: terminal obstacle overlap, power-up pickup -/

theorem checkCollisions2D_eq (s : Game2D) :
    checkCollisions2D s =
      { ball := (processPowerUps s.ball s.powerUps).1
        obstacles := s.obstacles
        powerUps := (processPowerUps s.ball s.powerUps).2.1
        gameOver := s.gameOver || s.obstacles.any (fun o => hitsObstacle s.ball o)
        pendingRadiusResets :=
          s.pendingRadiusResets + (processPowerUps s.ball s.powerUps).2.2 } := by
  cases s with
  | mk ball obstacles powerUps gameOver pending =>
    unfold checkCollisions2D endGame2D
    by_cases hobs : obstacles.any (fun o => hitsObstacle ball o) = true
    · simp [hobs]
    · simp [hobs]

theorem processPowerUps_single_hit (b : Ball2D) (p : PowerUp2D)
    (ha : p.active = true) (hh : hitsPowerUp b p = true) :
    processPowerUps b [p] = ({ b with radius := applyPowerUpRadius b p }, [], 1) := by
  simp [processPowerUps, ha, hh]

theorem processPowerUps_single_miss (b : Ball2D) (p : PowerUp2D)
    (h : ¬(p.active = true ∧ hitsPowerUp b p = true)) :
    processPowerUps b [p] = (b, [p], 0) := by
  simp only [processPowerUps]
  rw [if_neg h]

theorem corner_hit : hitsObstacle midairBall2D cornerObstacle2D = true := by
  norm_num [hitsObstacle, midairBall2D, initialBall2D, cornerObstacle2D]

theorem corner_any_hit :
    cornerGame2D.obstacles.any (fun o => hitsObstacle cornerGame2D.ball o) = true := by
  simp only [cornerGame2D, List.any_cons, List.any_nil, Bool.or_false]
  exact corner_hit

theorem grow_hit : hitsPowerUp midairBall2D growPowerUp2D = true := by
  norm_num [hitsPowerUp, midairBall2D, initialBall2D, growPowerUp2D]

/-- Counterexample to **C9** as stated: the 2D obstacle test is a
bounding-box test, not a circle test.  With the ball at `(80, 300)`,
radius 15, and an obstacle rectangle at `(91, 311)`–`(97, 317)`, the
ball's circle does not reach the rectangle (its closest point is at
squared distance `242 > 15² = 225`), yet `checkCollisions` ends the
session. -/
theorem box_hit_without_circle_overlap :
    hitsObstacle midairBall2D cornerObstacle2D = true ∧
    ¬ circleIntersectsRect midairBall2D cornerObstacle2D ∧
    (checkCollisions2D cornerGame2D).gameOver = true := by
  refine ⟨corner_hit, ?_, ?_⟩
  · norm_num [circleIntersectsRect, clampVal, midairBall2D, initialBall2D,
      cornerObstacle2D, min_def, max_def]
  · rw [checkCollisions2D_eq]
    show (cornerGame2D.gameOver
      || cornerGame2D.obstacles.any fun o => hitsObstacle cornerGame2D.ball o) = true
    rw [corner_any_hit, Bool.or_true]

/-- **C9 (amended)**: in the 2D side-scroller, the per-frame collision
check ends the session exactly when the ball's axis-aligned bounding
square overlaps an obstacle rectangle (the code's four-comparison test,
with no push-out) — this test is implied by, but does not imply, a true
circle overlap — and the same bounding-square overlap with an active
power-up applies its radius effect, removes it from the live list and
schedules its expiry timer, while inactive or non-overlapping power-ups
are kept and leave the ball unchanged (`OrangeBallGame.tsx:363-425`). -/
theorem checkCollisions2D_semantics :
    ∀ s : Game2D,
      ((checkCollisions2D s).gameOver = true ↔
        (s.gameOver = true ∨
          s.obstacles.any (fun o => hitsObstacle s.ball o) = true)) ∧
      (∀ p : PowerUp2D, s.powerUps = [p] → p.active = true →
        hitsPowerUp s.ball p = true →
        (checkCollisions2D s).powerUps = [] ∧
        (checkCollisions2D s).ball.radius = applyPowerUpRadius s.ball p ∧
        (checkCollisions2D s).pendingRadiusResets = s.pendingRadiusResets + 1) ∧
      (∀ p : PowerUp2D, s.powerUps = [p] →
        ¬(p.active = true ∧ hitsPowerUp s.ball p = true) →
        (checkCollisions2D s).powerUps = [p] ∧
        (checkCollisions2D s).ball = s.ball ∧
        (checkCollisions2D s).pendingRadiusResets = s.pendingRadiusResets) := by
  intro s
  rw [checkCollisions2D_eq]
  refine ⟨by simp [Bool.or_eq_true], ?_, ?_⟩
  · intro p hps ha hh
    rw [hps, processPowerUps_single_hit s.ball p ha hh]
    exact ⟨rfl, rfl, rfl⟩
  · intro p hps hmiss
    rw [hps, processPowerUps_single_miss s.ball p hmiss]
    exact ⟨rfl, rfl, rfl⟩

/-- Witness for C9 (amended): the corner-region obstacle ends the session;
the overlapping active grow power-up is consumed, grows the ball and
schedules one expiry timer. -/
theorem checkCollisions2D_semantics_witness :
    (checkCollisions2D cornerGame2D).gameOver = true ∧
    (checkCollisions2D pickupGame2D).powerUps = [] ∧
    (checkCollisions2D pickupGame2D).ball.radius
      = applyPowerUpRadius pickupGame2D.ball growPowerUp2D ∧
    (checkCollisions2D pickupGame2D).pendingRadiusResets
      = pickupGame2D.pendingRadiusResets + 1 :=
  ⟨(checkCollisions2D_semantics cornerGame2D).1.mpr (Or.inr corner_any_hit),
   ((checkCollisions2D_semantics pickupGame2D).2.1 growPowerUp2D rfl rfl grow_hit).1,
   ((checkCollisions2D_semantics pickupGame2D).2.1 growPowerUp2D rfl rfl grow_hit).2.1,
   ((checkCollisions2D_semantics pickupGame2D).2.1 growPowerUp2D rfl rfl grow_hit).2.2⟩

/-! ## C6 — the completed flag is a one-shot latch -/

theorem court_completed_fix (s : CourtState) (h : s.mazeCompleted = true) :
    checkBasketballCourtReached s = s := by
  unfold checkBasketballCourtReached
  rw [if_pos h]

theorem court_fire (s : CourtState) (h : s.mazeCompleted = false)
    (hd : distR s.ball.position s.goalPosition < 7) :
    checkBasketballCourtReached s =
      { s with
          mazeCompleted := true
          score := s.score + (if s.ball.deflated then 250 else 500)
          pendingEndTimers := s.pendingEndTimers + 1 } := by
  unfold checkBasketballCourtReached
  rw [if_neg (by simp [h]), if_pos hd]

/-- **C6**: the goal check of the city variant
(`checkBasketballCourtReached`, `OrangeBall3DGame.tsx:2001-2034`) fires at
most once per session: on a tick with the latch clear and the ball within
the capture radius (distance to the goal center < 7) it latches
`mazeCompleted`, awards 250 bonus points when the ball is deflated and 500
otherwise, and schedules exactly one delayed termination; once the latch
is set — in particular on every later tick inside the capture radius — the
check returns the state unchanged, so no bonus is re-awarded and no
termination re-triggered. -/
theorem goal_latch_one_shot :
    ∀ s : CourtState,
      (s.mazeCompleted = true → checkBasketballCourtReached s = s) ∧
      (s.mazeCompleted = false → distR s.ball.position s.goalPosition < 7 →
        (checkBasketballCourtReached s).mazeCompleted = true ∧
        (checkBasketballCourtReached s).score
          = s.score + (if s.ball.deflated then 250 else 500) ∧
        (checkBasketballCourtReached s).pendingEndTimers = s.pendingEndTimers + 1 ∧
        (checkBasketballCourtReached s).gameOver = s.gameOver ∧
        checkBasketballCourtReached (checkBasketballCourtReached s)
          = checkBasketballCourtReached s) := by
  intro s
  refine ⟨court_completed_fix s, fun h hd => ?_⟩
  rw [court_fire s h hd]
  exact ⟨rfl, rfl, rfl, rfl, court_completed_fix _ rfl⟩

/-- Witness for C6: a session whose intact ball sits at the goal center
latches, gains 500 points and schedules one delayed termination. -/
theorem goal_latch_one_shot_witness :
    (checkBasketballCourtReached courtStateReady).mazeCompleted = true ∧
    (checkBasketballCourtReached courtStateReady).score = courtStateReady.score + 500 ∧
    (checkBasketballCourtReached courtStateReady).pendingEndTimers
      = courtStateReady.pendingEndTimers + 1 := by
  have hd : distR courtStateReady.ball.position courtStateReady.goalPosition < 7 := by
    rw [show courtStateReady.ball.position = courtStateReady.goalPosition from rfl,
      distR_self]
    norm_num
  obtain ⟨h1, h2, h3, _, _⟩ := (goal_latch_one_shot courtStateReady).2 rfl hd
  exact ⟨h1, h2, h3⟩

/-! ## C7 — the deferred `endGame` does not guard on `gameOver` -/

/-- **C7** is violated by the code: the delayed termination scheduled by
the goal check is a bare `setTimeout(() => endGame(), 3000)`, and `endGame`
(`OrangeBall3DGame.tsx:2044-2076`; identically `582-615`) contains no
check of `gameOver`.  Fired against a session that has already ended, it
still mutates the session — here it rewrites the final-score display from
its stale value 0 to `floor(230/10) = 23` and clears the animation handle —
instead of being the no-op the spec requires.  (The power-up expiry timer
of the 2D variant, `OrangeBallGame.tsx:414-422`, does carry exactly the
guard the spec describes, so the missing guard in `endGame` is a slip, not
a design choice.) -/
theorem deferred_end_mutates_ended_session :
    endedCourtState.gameOver = true ∧
    endedCourtState.finalScore = 0 ∧
    (endGameCourt endedCourtState).finalScore = 23 ∧
    endedCourtState.animationId = 7 ∧
    (endGameCourt endedCourtState).animationId = 0 :=
  ⟨rfl, rfl, rfl, rfl, rfl⟩

/-! ## C5 — deflation fires once and is idempotent while damaged -/

theorem obstacleStep_preserves_deflated (b : Ball3R) (o : Obstacle3R)
    (hb : b.deflated = true) :
    (obstacleCollisionStep b o).deflated = true ∧
    (obstacleCollisionStep b o).radius = b.radius := by
  unfold obstacleCollisionStep
  split_ifs with h1 h2 h3
  · exact absurd h2.2 (by simp [hb])
  · exact ⟨hb, rfl⟩
  · exact ⟨hb, rfl⟩
  · exact ⟨hb, rfl⟩

/-- **C5**: on a frame where the ball overlaps a dangerous obstacle and is
not yet deflated, `checkObstacleCollisions`
(`OrangeBall3DGame.tsx:1941-1983`) flips the deflated flag and sets the
radius to `normalRadius * 0.8`, and does nothing else to those fields; on
every frame where the ball is already deflated, the whole obstacle pass —
dangerous overlaps included — changes neither the flag nor the radius. -/
theorem hazard_deflation_once :
    (∀ (b : Ball3R) (o : Obstacle3R),
      isCollidingR b.position b.radius o.box → o.dangerous = true →
      b.deflated = false →
      checkObstacleCollisions3D b [o]
        = { b with deflated := true, radius := b.normalRadius * 0.8 }) ∧
    (∀ (b : Ball3R) (os : List Obstacle3R), b.deflated = true →
      (checkObstacleCollisions3D b os).deflated = true ∧
      (checkObstacleCollisions3D b os).radius = b.radius) := by
  constructor
  · intro b o hc hd hb
    show obstacleCollisionStep b o = _
    unfold obstacleCollisionStep
    rw [if_pos hc, if_pos ⟨hd, hb⟩]
  · intro b os hb
    induction os generalizing b with
    | nil => exact ⟨hb, rfl⟩
    | cons o rest ih =>
      obtain ⟨h1, h2⟩ := obstacleStep_preserves_deflated b o hb
      obtain ⟨h3, h4⟩ := ih (obstacleCollisionStep b o) h1
      exact ⟨h3, h4.trans h2⟩

/-- Witness for C5: the intact city ball sitting inside a nail's bounding
box comes out deflated with radius `normalRadius * 0.8`. -/
theorem hazard_deflation_once_witness :
    isCollidingR baseBall3R.position baseBall3R.radius nailObstacle3R.box ∧
    (checkObstacleCollisions3D baseBall3R [nailObstacle3R]).deflated = true ∧
    (checkObstacleCollisions3D baseBall3R [nailObstacle3R]).radius
      = baseBall3R.normalRadius * 0.8 := by
  have hclamp : clampPoint nailObstacle3R.box baseBall3R.position
      = baseBall3R.position := by
    show clampPoint topBox3R ⟨0, 1, 0⟩ = ⟨0, 1, 0⟩
    unfold clampPoint clampVal topBox3R
    norm_num [min_def, max_def]
  have hc : isCollidingR baseBall3R.position baseBall3R.radius nailObstacle3R.box := by
    unfold isCollidingR
    rw [hclamp, distR_self]
    norm_num [baseBall3R]
  refine ⟨hc, ?_, ?_⟩
  · rw [hazard_deflation_once.1 baseBall3R nailObstacle3R hc rfl rfl]
  · rw [hazard_deflation_once.1 baseBall3R nailObstacle3R hc rfl rfl]

/-! ## C2 — helper lemmas on clamping, norms and the resolution body -/

theorem clampVal_push (p lo hi c : ℝ) (h : lo ≤ hi) (hc : 0 ≤ c) :
    clampVal (clampVal p lo hi + c * (p - clampVal p lo hi)) lo hi
      = clampVal p lo hi := by
  unfold clampVal
  rcases le_total p lo with hpl | hpl
  · rw [min_eq_right (hpl.trans h), max_eq_left hpl]
    have hv : lo + c * (p - lo) ≤ lo := by nlinarith
    rw [min_eq_right (hv.trans h), max_eq_left hv]
  · rcases le_total p hi with hph | hph
    · rw [min_eq_right hph, max_eq_right hpl, sub_self, mul_zero, add_zero,
        min_eq_right hph, max_eq_right hpl]
    · rw [min_eq_left hph, max_eq_right h]
      have hv : hi ≤ hi + c * (p - hi) := by nlinarith
      rw [min_eq_left hv, max_eq_right h]

theorem vlen_scale (c : ℝ) (v : Vec3R) :
    vlen ⟨c * v.x, c * v.y, c * v.z⟩ = |c| * vlen v := by
  simp only [vlen]
  rw [show (c * v.x) ^ 2 + (c * v.y) ^ 2 + (c * v.z) ^ 2
      = c ^ 2 * (v.x ^ 2 + v.y ^ 2 + v.z ^ 2) by ring,
    Real.sqrt_mul (sq_nonneg c), Real.sqrt_sq_eq_abs]

theorem vlen_scale_scalar (c x y z : ℝ) :
    vlen ⟨c * x, c * y, c * z⟩ = |c| * vlen ⟨x, y, z⟩ :=
  vlen_scale c ⟨x, y, z⟩

theorem resolveOverlap_position (b : Ball3R) (box : Box3R)
    (h : 0 < b.radius - vlen (vsub b.position (clampPoint box b.position))) :
    (resolveOverlap b box).position =
      ⟨b.position.x + (vnormalize (vsub b.position (clampPoint box b.position))).x *
          (b.radius - vlen (vsub b.position (clampPoint box b.position))),
       b.position.y,
       b.position.z + (vnormalize (vsub b.position (clampPoint box b.position))).z *
          (b.radius - vlen (vsub b.position (clampPoint box b.position)))⟩ := by
  simp only [resolveOverlap]
  rw [if_pos h]
  split_ifs <;> rfl

theorem resolveOverlap_radius (b : Ball3R) (box : Box3R) :
    (resolveOverlap b box).radius = b.radius := by
  simp only [resolveOverlap]
  split_ifs <;> rfl

/-- **C2 (amended)**: the push-out of the closest-point collision
resolution (`OrangeBall3DGame.tsx:497-523`) moves the ball only along the
horizontal (`x`, `z`) components of the normalized penetration vector —
the 3D variants perform no vertical positional resolution (vertical
contact only adjusts vertical velocity).  Consequently the no-overlap
guarantee holds exactly when the penetration vector is horizontal: for a
well-formed box and a colliding ball whose penetration vector has zero
vertical component and positive length, the resolved center is at distance
exactly `radius` from its closest point on the box (no remaining overlap),
and the ball's vertical position is unchanged. -/
theorem pushout_horizontal_exact :
    ∀ (b : Ball3R) (box : Box3R),
      box.min.x ≤ box.max.x → box.min.y ≤ box.max.y → box.min.z ≤ box.max.z →
      isCollidingR b.position b.radius box →
      (vsub b.position (clampPoint box b.position)).y = 0 →
      0 < vlen (vsub b.position (clampPoint box b.position)) →
      (resolveWallCollision b box).position.y = b.position.y ∧
      distR (resolveWallCollision b box).position
        (clampPoint box (resolveWallCollision b box).position) = b.radius := by
  intro b box h1x h1y h1z hcol hy hL
  have hLr : vlen (vsub b.position (clampPoint box b.position)) < b.radius := hcol
  have hd : 0 < b.radius - vlen (vsub b.position (clampPoint box b.position)) := by
    linarith
  have hLne : vlen (vsub b.position (clampPoint box b.position)) ≠ 0 := ne_of_gt hL
  have hres : resolveWallCollision b box = resolveOverlap b box := by
    unfold resolveWallCollision
    rw [if_pos hcol]
  have hn : vnormalize (vsub b.position (clampPoint box b.position)) =
      ⟨(vsub b.position (clampPoint box b.position)).x /
          vlen (vsub b.position (clampPoint box b.position)),
       (vsub b.position (clampPoint box b.position)).y /
          vlen (vsub b.position (clampPoint box b.position)),
       (vsub b.position (clampPoint box b.position)).z /
          vlen (vsub b.position (clampPoint box b.position))⟩ := by
    unfold vnormalize
    rw [if_neg hLne]
  rw [hres, resolveOverlap_position b box hd, hn]
  refine ⟨rfl, ?_⟩
  simp only [distR, vsub, clampPoint] at hy hL hLne hd hLr ⊢
  set qx := clampVal b.position.x box.min.x box.max.x with hqx
  set qy := clampVal b.position.y box.min.y box.max.y with hqy
  set qz := clampVal b.position.z box.min.z box.max.z with hqz
  set L := vlen (⟨b.position.x - qx, b.position.y - qy, b.position.z - qz⟩ : Vec3R)
    with hLdef
  have hr : 0 < b.radius := by linarith
  have hc0 : (0 : ℝ) ≤ 1 + (b.radius - L) / L := by
    have := le_of_lt (div_pos hd hL)
    linarith
  have heqx : b.position.x + (b.position.x - qx) / L * (b.radius - L)
      = qx + (1 + (b.radius - L) / L) * (b.position.x - qx) := by
    field_simp
    ring
  have heqz : b.position.z + (b.position.z - qz) / L * (b.radius - L)
      = qz + (1 + (b.radius - L) / L) * (b.position.z - qz) := by
    field_simp
    ring
  have hcx : clampVal (b.position.x + (b.position.x - qx) / L * (b.radius - L))
      box.min.x box.max.x = qx := by
    rw [heqx, hqx]
    exact clampVal_push b.position.x box.min.x box.max.x (1 + (b.radius - L) / L) h1x hc0
  have hcz : clampVal (b.position.z + (b.position.z - qz) / L * (b.radius - L))
      box.min.z box.max.z = qz := by
    rw [heqz, hqz]
    exact clampVal_push b.position.z box.min.z box.max.z (1 + (b.radius - L) / L) h1z hc0
  rw [hcx, hcz]
  have hxc : b.position.x + (b.position.x - qx) / L * (b.radius - L) - qx
      = b.radius / L * (b.position.x - qx) := by
    field_simp
    ring
  have hyc : b.position.y - qy = b.radius / L * (b.position.y - qy) := by
    rw [hy, mul_zero]
  have hzc : b.position.z + (b.position.z - qz) / L * (b.radius - L) - qz
      = b.radius / L * (b.position.z - qz) := by
    field_simp
    ring
  rw [hxc, hyc, hzc, vlen_scale_scalar, abs_of_pos (div_pos hr hL), ← hLdef]
  field_simp

/-- Counterexample to **C2** as stated: a purely vertical penetration is
not resolved at all.  The ball of radius `0.5` centered at `(0, 1.2, 0)`
penetrates the box `[-1,1]×[0,1]×[-1,1]` from above (closest point
`(0,1,0)`, depth `0.3 > 0`); the handler leaves the position unchanged, so
the resolved distance to the box is still `0.2 < 0.5 − ε` (for any
tolerance `ε ≤ 0.3`) — and no vertical resolution occurs in this 3D
variant. -/
theorem vertical_pushout_leaves_overlap :
    (resolveWallCollision overlapBall3R topBox3R).position = overlapBall3R.position ∧
    (resolveWallCollision overlapBall3R topBox3R).radius = 0.5 ∧
    distR (resolveWallCollision overlapBall3R topBox3R).position
      (clampPoint topBox3R (resolveWallCollision overlapBall3R topBox3R).position)
      = 0.2 ∧
    (0.2 : ℝ) < 0.5 - 0.01 := by
  have hclamp : clampPoint topBox3R (⟨0, 1.2, 0⟩ : Vec3R) = ⟨0, 1, 0⟩ := by
    unfold clampPoint clampVal topBox3R
    norm_num [min_def, max_def]
  have hpv : vsub (⟨0, 1.2, 0⟩ : Vec3R) ⟨0, 1, 0⟩ = ⟨0, 0.2, 0⟩ := by
    unfold vsub
    norm_num
  have hL : vlen ⟨(0 : ℝ), 0.2, 0⟩ = 0.2 := vlen_eval 0.2 (by norm_num) (by norm_num)
  have hposition : overlapBall3R.position = (⟨0, 1.2, 0⟩ : Vec3R) := rfl
  have hkey : vlen (vsub overlapBall3R.position
      (clampPoint topBox3R overlapBall3R.position)) = 0.2 := by
    rw [hposition, hclamp, hpv, hL]
  have hcol : isCollidingR overlapBall3R.position overlapBall3R.radius topBox3R := by
    show distR overlapBall3R.position (clampPoint topBox3R overlapBall3R.position)
      < overlapBall3R.radius
    unfold distR
    rw [hkey]
    norm_num [overlapBall3R, baseBall3R]
  have hd : 0 < overlapBall3R.radius - vlen (vsub overlapBall3R.position
      (clampPoint topBox3R overlapBall3R.position)) := by
    rw [hkey]
    norm_num [overlapBall3R, baseBall3R]
  have hn : vnormalize (vsub overlapBall3R.position
      (clampPoint topBox3R overlapBall3R.position)) = ⟨0, 1, 0⟩ := by
    rw [hposition, hclamp, hpv]
    unfold vnormalize
    rw [hL]
    norm_num
  have hres : resolveWallCollision overlapBall3R topBox3R
      = resolveOverlap overlapBall3R topBox3R := by
    unfold resolveWallCollision
    rw [if_pos hcol]
  have hpos : (resolveWallCollision overlapBall3R topBox3R).position
      = overlapBall3R.position := by
    rw [hres, resolveOverlap_position _ _ hd, hn]
    rw [hposition]
    norm_num
  refine ⟨hpos, ?_, ?_, by norm_num⟩
  · rw [hres, resolveOverlap_radius]
    rfl
  · rw [hpos, hposition, hclamp]
    unfold distR
    rw [hpv, hL]

/-- Witness for C2 (amended): a purely horizontal penetration of depth
`0.1` is pushed out to distance exactly `radius = 0.5`, with the vertical
position untouched. -/
theorem pushout_horizontal_exact_witness :
    isCollidingR sideBall3R.position sideBall3R.radius sideBox3R ∧
    (vsub sideBall3R.position (clampPoint sideBox3R sideBall3R.position)).y = 0 ∧
    (resolveWallCollision sideBall3R sideBox3R).position.y = sideBall3R.position.y ∧
    distR (resolveWallCollision sideBall3R sideBox3R).position
      (clampPoint sideBox3R (resolveWallCollision sideBall3R sideBox3R).position)
      = sideBall3R.radius := by
  have hclamp : clampPoint sideBox3R (⟨0.6, 0.5, 0⟩ : Vec3R) = ⟨1, 0.5, 0⟩ := by
    unfold clampPoint clampVal sideBox3R
    norm_num [min_def, max_def]
  have hpv : vsub (⟨0.6, 0.5, 0⟩ : Vec3R) ⟨1, 0.5, 0⟩ = ⟨-0.4, 0, 0⟩ := by
    unfold vsub
    norm_num
  have hL : vlen ⟨(-0.4 : ℝ), 0, 0⟩ = 0.4 := by
    refine vlen_eval 0.4 (by norm_num) (by norm_num)
  have hposition : sideBall3R.position = (⟨0.6, 0.5, 0⟩ : Vec3R) := rfl
  have hkey : vlen (vsub sideBall3R.position
      (clampPoint sideBox3R sideBall3R.position)) = 0.4 := by
    rw [hposition, hclamp, hpv, hL]
  have hcol : isCollidingR sideBall3R.position sideBall3R.radius sideBox3R := by
    show distR sideBall3R.position (clampPoint sideBox3R sideBall3R.position)
      < sideBall3R.radius
    unfold distR
    rw [hkey]
    norm_num [sideBall3R, baseBall3R]
  have hy : (vsub sideBall3R.position (clampPoint sideBox3R sideBall3R.position)).y
      = 0 := by
    rw [hposition, hclamp, hpv]
  have hLpos : 0 < vlen (vsub sideBall3R.position
      (clampPoint sideBox3R sideBall3R.position)) := by
    rw [hkey]
    norm_num
  obtain ⟨h1, h2⟩ := pushout_horizontal_exact sideBall3R sideBox3R
    (by norm_num [sideBox3R]) (by norm_num [sideBox3R]) (by norm_num [sideBox3R])
    hcol hy hLpos
  exact ⟨hcol, hy, h1, h2⟩

end OrangeBall
